import Mathlib

/-!
Shallow embedding of the Amundsen MCP server (`src/main.py`): a JSON value
model with Python dict/iteration semantics, the `MetadataProcessor`
extractors, the `TableApiClient` operations (with the network modelled as a
fetch oracle plus an explicit log of requested URLs), and the MCP tool
façade, together with theorems settling the specification claims.
-/

/-- A JSON value, as produced by parsing a catalog response. -/
inductive Json where
  | null : Json
  | bool (b : Bool) : Json
  | num (n : Int) : Json
  | str (s : String) : Json
  | arr (elems : List Json) : Json
  | obj (fields : List (String × Json)) : Json

/-- Python runtime errors that the embedded code can raise. -/
inductive PyErr where
  | typeError : PyErr
  | attributeError : PyErr
deriving DecidableEq

/-- Python `d.get(k)` on a top-level dict: the value if the key is present,
`None` otherwise. -/
def dictGet (d : List (String × Json)) (k : String) : Json :=
  (d.lookup k).getD Json.null

/-- Python `d.get(k, default)` on a top-level dict. -/
def dictGetD (d : List (String × Json)) (k : String) (default : Json) : Json :=
  (d.lookup k).getD default

/-- Python `k in d` on a top-level dict. -/
def dictHasKey (d : List (String × Json)) (k : String) : Bool :=
  (d.lookup k).isSome

/-- Python truthiness of a JSON value (`if x:`). -/
def truthy : Json → Bool
  | .null => false
  | .bool b => b
  | .num n => n != 0
  | .str s => s != ""
  | .arr elems => !elems.isEmpty
  | .obj fields => !fields.isEmpty

/-- Python `x == "s"` for a JSON value `x` and a string literal: true exactly
when `x` is that string. -/
def isStrEq (v : Json) (s : String) : Bool :=
  match v with
  | .str t => t == s
  | _ => false

/-- Python `for x in v`: lists yield their elements, strings their characters,
dicts their keys; anything else raises `TypeError`. -/
def pyIter : Json → Except PyErr (List Json)
  | .arr elems => .ok elems
  | .str s => .ok (s.toList.map fun c => Json.str (String.singleton c))
  | .obj fields => .ok (fields.map fun p => Json.str p.1)
  | _ => .error PyErr.typeError

/-- Python `v.get(k)` on an arbitrary value: succeeds only when `v` is a dict,
otherwise raises `AttributeError`. -/
def objGet : Json → String → Except PyErr Json
  | .obj fields, k => .ok ((fields.lookup k).getD Json.null)
  | _, _ => .error PyErr.attributeError

/-- Python `v.get(k, default)` on an arbitrary value. -/
def objGetD : Json → String → Json → Except PyErr Json
  | .obj fields, k, default => .ok ((fields.lookup k).getD default)
  | _, _, _ => .error PyErr.attributeError

/-- Inner loop of `extract_columns`: `for badge in column.get("badges", []):
if badge.get("badge_name") == "partition column": partition_keys.append(column_info)`. -/
def badgeLoop (info : Json) : List Json → List Json → Except PyErr (List Json)
  | [], pks => .ok pks
  | badge :: rest, pks => do
      let bn ← objGet badge "badge_name"
      badgeLoop info rest (if isStrEq bn "partition column" then pks ++ [info] else pks)

/-- Outer loop of `extract_columns` over `table_data.get("columns", [])`,
threading the `columns` and `partition_keys` accumulators. -/
def extractColumnsLoop : List Json → List Json → List Json → Except PyErr (List Json × List Json)
  | [], cols, pks => .ok (cols, pks)
  | column :: rest, cols, pks => do
      let name ← objGet column "name"
      let ctype ← objGet column "col_type"
      let desc ← objGet column "description"
      let info := Json.obj [("name", name), ("type", ctype), ("description", desc)]
      let badgesVal ← objGetD column "badges" (Json.arr [])
      let badges ← pyIter badgesVal
      let pks' ← badgeLoop info badges pks
      extractColumnsLoop rest (cols ++ [info]) pks'

/-- `MetadataProcessor.extract_columns` from `src/main.py`. -/
def extract_columns (table_data : List (String × Json)) : Except PyErr Json :=
  if dictHasKey table_data "error" then
    .ok (Json.obj [("error", dictGet table_data "error")])
  else do
    let columns ← pyIter (dictGetD table_data "columns" (Json.arr []))
    let (cols, pks) ← extractColumnsLoop columns [] []
    pure (Json.obj [("columns", Json.arr cols), ("partition_keys", Json.arr pks)])

/-- Loop of `extract_date_range` over `table_data.get("watermarks", [])`,
threading the mutable `date_range["from"]` and `date_range["to"]` slots. -/
def extractDateRangeLoop : List Json → Json → Json → Except PyErr (Json × Json)
  | [], fromVal, toVal => .ok (fromVal, toVal)
  | wm :: rest, fromVal, toVal => do
      let wt ← objGet wm "watermark_type"
      if isStrEq wt "low_watermark" then do
        let k ← objGet wm "partition_key"
        let v ← objGet wm "partition_value"
        extractDateRangeLoop rest (Json.obj [("key", k), ("value", v)]) toVal
      else if isStrEq wt "high_watermark" then do
        let k ← objGet wm "partition_key"
        let v ← objGet wm "partition_value"
        extractDateRangeLoop rest fromVal (Json.obj [("key", k), ("value", v)])
      else
        extractDateRangeLoop rest fromVal toVal

/-- `MetadataProcessor.extract_date_range` from `src/main.py`. -/
def extract_date_range (table_data : List (String × Json)) : Except PyErr Json :=
  if dictHasKey table_data "error" then
    .ok (Json.obj [("error", dictGet table_data "error")])
  else do
    let watermarks ← pyIter (dictGetD table_data "watermarks" (Json.arr []))
    let (fromVal, toVal) ← extractDateRangeLoop watermarks Json.null Json.null
    if truthy fromVal || truthy toVal then
      pure (Json.obj [("from", fromVal), ("to", toVal)])
    else
      pure (Json.str "table has no date range")

/-- Loop of `extract_owners` over `table_data.get("owners", [])`. -/
def extractOwnersLoop : List Json → List Json → Except PyErr (List Json)
  | [], owners => .ok owners
  | owner :: rest, owners => do
      let uid ← objGet owner "user_id"
      extractOwnersLoop rest (owners ++ [uid])

/-- `MetadataProcessor.extract_owners` from `src/main.py`. -/
def extract_owners (table_data : List (String × Json)) : Except PyErr Json :=
  if dictHasKey table_data "error" then
    .ok (Json.obj [("error", dictGet table_data "error")])
  else do
    let ownerEntries ← pyIter (dictGetD table_data "owners" (Json.arr []))
    let owners ← extractOwnersLoop ownerEntries []
    if owners.length > 0 then
      pure (Json.arr owners)
    else
      pure (Json.str "the table has no owners")

/-- A fetch oracle standing for the transport collaborator: maps a URL to the
parsed JSON dict that `make_request` produces for it (on transport failure the
collaborator already yields `{"error": msg}`, per the try/except in
`AmundsenApiClient.make_request`). -/
def Fetch : Type := String → List (String × Json)

/-- `AmundsenApiClient.make_request`: performs the fetch and logs the
requested URL (the `print` trace / outgoing request). -/
def make_request (fetch : Fetch) (url : String) : List (String × Json) × List String :=
  (fetch url, [url])

/-- `TableApiClient.get_table_url`: the catalog resource URL
`<base>/table/<database>://gold.<schema>/<table>`. -/
def get_table_url (base_url database schema_name table_name : String) : String :=
  base_url ++ "/table/" ++ database ++ "://gold." ++ schema_name ++ "/" ++ table_name

/-- `TableApiClient.get_metadata`: one fetch of the table metadata URL. -/
def get_metadata (fetch : Fetch) (base_url database schema_name table_name : String) :
    List (String × Json) × List String :=
  make_request fetch (get_table_url base_url database schema_name table_name)

/-- The direction check of `TableApiClient.get_lineage`:
`direction in ["both", "upstream", "downstream"]`. -/
def validDirection (direction : String) : Bool :=
  direction == "both" || direction == "upstream" || direction == "downstream"

/-- The lineage request URL `<table url>/lineage?depth=<depth>&direction=<direction>`. -/
def lineage_url (base_url database schema_name table_name : String)
    (depth : Int) (direction : String) : String :=
  get_table_url base_url database schema_name table_name ++
    "/lineage?depth=" ++ toString depth ++ "&direction=" ++ direction

/-- `TableApiClient.get_lineage` from `src/main.py`: validates the direction,
then fetches and shapes the lineage payload; returns the result together with
the list of URLs requested. -/
def get_lineage (fetch : Fetch) (base_url database schema_name table_name : String)
    (depth : Int) (direction : String) : Json × List String :=
  if !validDirection direction then
    (Json.obj [("error", Json.str "Invalid direction. Must be one of: both, upstream, downstream")], [])
  else
    let url := lineage_url base_url database schema_name table_name depth direction
    let (response, reqs) := make_request fetch url
    let upstream := dictGet response "upstream_entities"
    let downstream := dictGet response "downstream_entities"
    let lineage := Json.obj [("upstream", upstream), ("downstream", downstream)]
    (if truthy upstream || truthy downstream then lineage else Json.str "Table has no lineage", reqs)

/-- The dashboard request URL `<table url>/dashboard/`. -/
def dashboard_url (base_url database schema_name table_name : String) : String :=
  get_table_url base_url database schema_name table_name ++ "/dashboard/"

/-- Loop of `get_tables_dashboard` over the raw dashboard entries. -/
def dashboardLoop : List Json → List Json → Except PyErr (List Json)
  | [], dashboards => .ok dashboards
  | raw :: rest, dashboards => do
      let u ← objGet raw "url"
      let n ← objGet raw "name"
      let g ← objGet raw "group_name"
      dashboardLoop rest (dashboards ++
        [Json.obj [("url", u), ("dashboard_name", n), ("collection_name", g)]])

/-- The post-fetch body of `TableApiClient.get_tables_dashboard`: iterates
`response.get("dashboards")` (note: no default, so a missing or null field is
`None` and the `for` raises `TypeError`) and shapes each entry. -/
def extract_dashboards (response : List (String × Json)) : Except PyErr Json := do
  let rawList ← pyIter (dictGet response "dashboards")
  let dashboards ← dashboardLoop rawList []
  if dashboards.length > 0 then
    pure (Json.arr dashboards)
  else
    pure (Json.str "table has no dashboard")

/-- `TableApiClient.get_tables_dashboard` from `src/main.py`. -/
def get_tables_dashboard (fetch : Fetch) (base_url database schema_name table_name : String) :
    Except PyErr Json × List String :=
  let (response, reqs) := make_request fetch (dashboard_url base_url database schema_name table_name)
  (extract_dashboards response, reqs)

/-- Tool `get_table_columns`: fetch metadata, then `extract_columns`. -/
def get_table_columns (fetch : Fetch) (base_url database schema_name table_name : String) :
    Except PyErr Json × List String :=
  let (table_data, reqs) := get_metadata fetch base_url database schema_name table_name
  (extract_columns table_data, reqs)

/-- Tool `get_table_date_range`: fetch metadata, then `extract_date_range`. -/
def get_table_date_range (fetch : Fetch) (base_url database schema_name table_name : String) :
    Except PyErr Json × List String :=
  let (table_data, reqs) := get_metadata fetch base_url database schema_name table_name
  (extract_date_range table_data, reqs)

/-- Tool `get_table_owners`: fetch metadata, then `extract_owners`. -/
def get_table_owners (fetch : Fetch) (base_url database schema_name table_name : String) :
    Except PyErr Json × List String :=
  let (table_data, reqs) := get_metadata fetch base_url database schema_name table_name
  (extract_owners table_data, reqs)

/-- Tool `get_table_lineage_info`: forwards all arguments to `get_lineage`. -/
def get_table_lineage_info (fetch : Fetch) (base_url database schema_name table_name : String)
    (depth : Int) (direction : String) : Json × List String :=
  get_lineage fetch base_url database schema_name table_name depth direction

/-- A call of `get_table_lineage_info` that omits the optional arguments,
taking the Python defaults `depth=1`, `direction="both"`. -/
def get_table_lineage_info_default (fetch : Fetch)
    (base_url database schema_name table_name : String) : Json × List String :=
  get_table_lineage_info fetch base_url database schema_name table_name 1 "both"

/-- Tool `get_table_dasboard_info` (name as in the source): forwards to
`get_tables_dashboard`. -/
def get_table_dasboard_info (fetch : Fetch) (base_url database schema_name table_name : String) :
    Except PyErr Json × List String :=
  get_tables_dashboard fetch base_url database schema_name table_name

/-- Whether a JSON value is a dict. -/
def isObj : Json → Bool
  | .obj _ => true
  | _ => false

/-- Whether a JSON value is a list all of whose elements are dicts. -/
def isObjList : Json → Bool
  | .arr elems => elems.all isObj
  | _ => false

/-- The element list of a JSON list (and `[]` on any other value). -/
def asList : Json → List Json
  | .arr elems => elems
  | _ => []

/-- Total field lookup on a JSON value: the field's value when the value is a
dict holding the key, `null` otherwise. -/
def jGet (v : Json) (k : String) : Json :=
  match v with
  | .obj fields => (fields.lookup k).getD Json.null
  | _ => Json.null

/-- Total field lookup with a default. -/
def jGetD (v : Json) (k : String) (default : Json) : Json :=
  match v with
  | .obj fields => (fields.lookup k).getD default
  | _ => default

/-- The badges value of a column entry, `[]` when absent. -/
def badgesOf (c : Json) : Json := jGetD c "badges" (Json.arr [])

/-- The badge entries of a column as a list. -/
def badgeListOf (c : Json) : List Json := asList (badgesOf c)

/-- Whether one badge marks a partition column: its `badge_name` is exactly
the string literal used in the source. -/
def isPartitionBadge (b : Json) : Bool := isStrEq (jGet b "badge_name") "partition column"

/-- Whether some badge of a column marks it as a partition column. -/
def hasPartitionBadge (c : Json) : Bool := (badgeListOf c).any fun b => isPartitionBadge b

/-- The `{name, type, description}` summary built for one column entry. -/
def columnInfo (c : Json) : Json :=
  Json.obj [("name", jGet c "name"), ("type", jGet c "col_type"),
    ("description", jGet c "description")]

/-- Well-shapedness of one column entry: a dict whose badges field, when
present, is a list of dicts. -/
def wfColumn (c : Json) : Bool := isObj c && isObjList (badgesOf c)

/-- The partition-keys list the column loop produces: each column contributes
its summary once per partition badge, in source order. -/
def partitionKeysSpec (cols : List Json) : List Json :=
  cols.flatMap fun c => ((badgeListOf c).filter fun b => isPartitionBadge b).map fun _ => columnInfo c

/-- The value of `table_data.get("columns", [])`. -/
def columnsVal (table_data : List (String × Json)) : Json :=
  dictGetD table_data "columns" (Json.arr [])

/-- Whether a watermark entry has type `low_watermark`. -/
def isLowWm (w : Json) : Bool := isStrEq (jGet w "watermark_type") "low_watermark"

/-- Whether a watermark entry has type `high_watermark`. -/
def isHighWm (w : Json) : Bool := isStrEq (jGet w "watermark_type") "high_watermark"

/-- The low-watermark entries of a watermark list, in source order. -/
def lowsOf (wms : List Json) : List Json := wms.filter isLowWm

/-- The high-watermark entries of a watermark list, in source order. -/
def highsOf (wms : List Json) : List Json := wms.filter isHighWm

/-- The `{key, value}` pair built from one watermark entry. -/
def mkRange (w : Json) : Json :=
  Json.obj [("key", jGet w "partition_key"), ("value", jGet w "partition_value")]

/-- The range pair from the last entry of a list, or the default when the list
is empty. -/
def lastD (l : List Json) (default : Json) : Json :=
  match l.getLast? with
  | none => default
  | some w => mkRange w

/-- Formalisation of the claimed date-range result, following the spec's
words: `from` from the last `low_watermark` entry (null if none), `to` from
the last `high_watermark` entry (null if none), and the sentinel exactly when
both remain null. -/
def dateRangeSpec (wms : List Json) : Json :=
  if (lowsOf wms).isEmpty && (highsOf wms).isEmpty then
    Json.str "table has no date range"
  else
    Json.obj [("from", lastD (lowsOf wms) Json.null), ("to", lastD (highsOf wms) Json.null)]

/-- The value of `table_data.get("watermarks", [])`. -/
def watermarksVal (table_data : List (String × Json)) : Json :=
  dictGetD table_data "watermarks" (Json.arr [])

/-- The `user_id` values collected from the owner entries, in source order. -/
def userIdsOf (os : List Json) : List Json := os.map fun o => jGet o "user_id"

/-- Formalisation of the claimed owners result, following the spec's words:
the ordered `user_id` sequence, or the sentinel when it is empty. -/
def ownersSpec (os : List Json) : Json :=
  if (userIdsOf os).length > 0 then Json.arr (userIdsOf os)
  else Json.str "the table has no owners"

/-- The value of `table_data.get("owners", [])`. -/
def ownersVal (table_data : List (String × Json)) : Json :=
  dictGetD table_data "owners" (Json.arr [])

theorem exceptOk_bind {α β : Type} (a : α) (f : α → Except PyErr β) :
    (Except.ok a >>= f) = f a := rfl

theorem objGet_of_isObj (c : Json) (k : String) (h : isObj c = true) :
    objGet c k = .ok (jGet c k) := by
  cases c <;> simp_all [isObj, objGet, jGet]

theorem objGetD_of_isObj (c : Json) (k : String) (d : Json) (h : isObj c = true) :
    objGetD c k d = .ok (jGetD c k d) := by
  cases c <;> simp_all [isObj, objGetD, jGetD]

theorem pyIter_of_isObjList (v : Json) (h : isObjList v = true) :
    pyIter v = .ok (asList v) := by
  cases v <;> simp_all [isObjList, pyIter, asList]

theorem asList_all_isObj (v : Json) (h : isObjList v = true) :
    (asList v).all isObj = true := by
  cases v <;> simp_all [isObjList, asList]

theorem badgeLoop_eq (info : Json) (badges pks : List Json)
    (h : badges.all isObj = true) :
    badgeLoop info badges pks =
      .ok (pks ++ (badges.filter fun b => isPartitionBadge b).map fun _ => info) := by
  induction badges generalizing pks with
  | nil => simp [badgeLoop]
  | cons b rest ih =>
    simp only [List.all_cons, Bool.and_eq_true] at h
    obtain ⟨hb, hrest⟩ := h
    rw [badgeLoop, objGet_of_isObj b "badge_name" hb]
    show badgeLoop info rest _ = _
    rw [ih _ hrest, List.filter_cons]
    by_cases hp : isPartitionBadge b = true
    · simp [isPartitionBadge] at hp
      simp [hp, isPartitionBadge, List.append_assoc]
    · simp [isPartitionBadge] at hp
      simp [hp, isPartitionBadge]

theorem extractColumnsLoop_eq (cols colAcc pkAcc : List Json)
    (h : cols.all wfColumn = true) :
    extractColumnsLoop cols colAcc pkAcc =
      .ok (colAcc ++ cols.map columnInfo, pkAcc ++ partitionKeysSpec cols) := by
  induction cols generalizing colAcc pkAcc with
  | nil => simp [extractColumnsLoop, partitionKeysSpec]
  | cons c rest ih =>
    simp only [List.all_cons, Bool.and_eq_true] at h
    obtain ⟨hc, hrest⟩ := h
    rw [wfColumn, Bool.and_eq_true] at hc
    obtain ⟨hobj, hbadges⟩ := hc
    rw [extractColumnsLoop, objGet_of_isObj c "name" hobj,
      objGet_of_isObj c "col_type" hobj, objGet_of_isObj c "description" hobj]
    show (do
        let badgesVal ← objGetD c "badges" (Json.arr [])
        let badges ← pyIter badgesVal
        let pks' ← badgeLoop (columnInfo c) badges pkAcc
        extractColumnsLoop rest (colAcc ++ [columnInfo c]) pks') = _
    rw [objGetD_of_isObj c "badges" (Json.arr []) hobj]
    show (do
        let badges ← pyIter (badgesOf c)
        let pks' ← badgeLoop (columnInfo c) badges pkAcc
        extractColumnsLoop rest (colAcc ++ [columnInfo c]) pks') = _
    rw [pyIter_of_isObjList _ hbadges]
    show (do
        let pks' ← badgeLoop (columnInfo c) (asList (badgesOf c)) pkAcc
        extractColumnsLoop rest (colAcc ++ [columnInfo c]) pks') = _
    rw [badgeLoop_eq _ _ _ (asList_all_isObj _ hbadges)]
    show extractColumnsLoop rest (colAcc ++ [columnInfo c]) _ = _
    rw [ih _ _ hrest]
    simp [partitionKeysSpec, badgeListOf, List.append_assoc]

theorem extract_columns_eq (table_data : List (String × Json)) (cols : List Json)
    (herr : table_data.lookup "error" = none)
    (hcols : columnsVal table_data = Json.arr cols)
    (hwf : cols.all wfColumn = true) :
    extract_columns table_data =
      .ok (Json.obj [("columns", Json.arr (cols.map columnInfo)),
        ("partition_keys", Json.arr (partitionKeysSpec cols))]) := by
  rw [extract_columns, dictHasKey, herr]
  show (do
      let columns ← pyIter (columnsVal table_data)
      let (cs, pks) ← extractColumnsLoop columns [] []
      pure (Json.obj [("columns", Json.arr cs), ("partition_keys", Json.arr pks)])) = _
  rw [hcols]
  show (do
      let (cs, pks) ← extractColumnsLoop cols [] []
      pure (Json.obj [("columns", Json.arr cs), ("partition_keys", Json.arr pks)])) = _
  rw [extractColumnsLoop_eq cols [] [] hwf]
  simp

theorem lastD_cons (w : Json) (l : List Json) (d : Json) :
    lastD (w :: l) d = lastD l (mkRange w) := by
  cases hgl : l.getLast? with
  | none =>
    rw [List.getLast?_eq_none_iff] at hgl
    subst hgl
    simp [lastD]
  | some x =>
    have hwl : (w :: l).getLast? = some x := by
      cases l with
      | nil => simp at hgl
      | cons b t => rw [List.getLast?_cons_cons]; exact hgl
    simp [lastD, hwl, hgl]

theorem isLowWm_not_high (w : Json) (h : isLowWm w = true) : isHighWm w = false := by
  unfold isLowWm isStrEq at h
  unfold isHighWm isStrEq
  cases hj : jGet w "watermark_type" <;> simp_all

theorem extractDateRangeLoop_eq (wms : List Json) (f t : Json)
    (h : wms.all isObj = true) :
    extractDateRangeLoop wms f t =
      .ok (lastD (lowsOf wms) f, lastD (highsOf wms) t) := by
  induction wms generalizing f t with
  | nil => simp [extractDateRangeLoop, lowsOf, highsOf, lastD]
  | cons w rest ih =>
    simp only [List.all_cons, Bool.and_eq_true] at h
    obtain ⟨hw, hrest⟩ := h
    rw [extractDateRangeLoop, objGet_of_isObj w "watermark_type" hw]
    show (if isStrEq (jGet w "watermark_type") "low_watermark" then do
        let k ← objGet w "partition_key"
        let v ← objGet w "partition_value"
        extractDateRangeLoop rest (Json.obj [("key", k), ("value", v)]) t
      else if isStrEq (jGet w "watermark_type") "high_watermark" then do
        let k ← objGet w "partition_key"
        let v ← objGet w "partition_value"
        extractDateRangeLoop rest f (Json.obj [("key", k), ("value", v)])
      else
        extractDateRangeLoop rest f t) = _
    by_cases hlow : isStrEq (jGet w "watermark_type") "low_watermark" = true
    · have hlow' : isLowWm w = true := hlow
      have hhigh' : isHighWm w = false := isLowWm_not_high w hlow'
      rw [if_pos hlow, objGet_of_isObj w "partition_key" hw,
        objGet_of_isObj w "partition_value" hw]
      show extractDateRangeLoop rest (mkRange w) t = _
      rw [ih _ _ hrest]
      simp [lowsOf, highsOf, List.filter_cons, hlow', hhigh', lastD_cons]
    · have hlow' : isLowWm w = false := by
        rw [isLowWm]
        exact Bool.not_eq_true _ ▸ hlow
      by_cases hhigh : isStrEq (jGet w "watermark_type") "high_watermark" = true
      · have hhigh' : isHighWm w = true := hhigh
        rw [if_neg (by simp [hlow]), if_pos hhigh,
          objGet_of_isObj w "partition_key" hw, objGet_of_isObj w "partition_value" hw]
        show extractDateRangeLoop rest f (mkRange w) = _
        rw [ih _ _ hrest]
        simp [lowsOf, highsOf, List.filter_cons, hlow', hhigh', lastD_cons]
      · have hhigh' : isHighWm w = false := by
          rw [isHighWm]
          exact Bool.not_eq_true _ ▸ hhigh
        rw [if_neg (by simp [hlow]), if_neg (by simp [hhigh])]
        rw [ih _ _ hrest]
        simp [lowsOf, highsOf, List.filter_cons, hlow', hhigh']

theorem truthy_lastD_null (l : List Json) : truthy (lastD l Json.null) = !l.isEmpty := by
  cases hl : l.getLast? with
  | none =>
    rw [List.getLast?_eq_none_iff] at hl
    subst hl
    simp [lastD, truthy]
  | some w =>
    have hne : l ≠ [] := by
      intro h
      subst h
      simp at hl
    rw [lastD, hl]
    cases l with
    | nil => exact absurd rfl hne
    | cons a t => simp [mkRange, truthy]

theorem extract_date_range_eq (table_data : List (String × Json)) (wms : List Json)
    (herr : table_data.lookup "error" = none)
    (hwms : watermarksVal table_data = Json.arr wms)
    (hwf : wms.all isObj = true) :
    extract_date_range table_data = .ok (dateRangeSpec wms) := by
  rw [extract_date_range, dictHasKey, herr]
  show (do
      let watermarks ← pyIter (watermarksVal table_data)
      let (fromVal, toVal) ← extractDateRangeLoop watermarks Json.null Json.null
      if truthy fromVal || truthy toVal then
        pure (Json.obj [("from", fromVal), ("to", toVal)])
      else
        pure (Json.str "table has no date range")) = _
  rw [hwms]
  show (do
      let (fromVal, toVal) ← extractDateRangeLoop wms Json.null Json.null
      if truthy fromVal || truthy toVal then
        pure (Json.obj [("from", fromVal), ("to", toVal)])
      else
        pure (Json.str "table has no date range")) = _
  rw [extractDateRangeLoop_eq wms _ _ hwf]
  show (if truthy (lastD (lowsOf wms) Json.null) || truthy (lastD (highsOf wms) Json.null) then
      Except.ok (Json.obj [("from", lastD (lowsOf wms) Json.null),
        ("to", lastD (highsOf wms) Json.null)])
    else
      Except.ok (Json.str "table has no date range")) = _
  rw [truthy_lastD_null, truthy_lastD_null, dateRangeSpec]
  cases hl : (lowsOf wms).isEmpty <;> cases hh : (highsOf wms).isEmpty <;> simp

theorem extractOwnersLoop_eq (os acc : List Json) (h : os.all isObj = true) :
    extractOwnersLoop os acc = .ok (acc ++ userIdsOf os) := by
  induction os generalizing acc with
  | nil => simp [extractOwnersLoop, userIdsOf]
  | cons o rest ih =>
    simp only [List.all_cons, Bool.and_eq_true] at h
    obtain ⟨ho, hrest⟩ := h
    rw [extractOwnersLoop, objGet_of_isObj o "user_id" ho]
    show extractOwnersLoop rest (acc ++ [jGet o "user_id"]) = _
    rw [ih _ hrest]
    simp [userIdsOf]

theorem extract_owners_eq (table_data : List (String × Json)) (os : List Json)
    (herr : table_data.lookup "error" = none)
    (hos : ownersVal table_data = Json.arr os)
    (hwf : os.all isObj = true) :
    extract_owners table_data = .ok (ownersSpec os) := by
  rw [extract_owners, dictHasKey, herr]
  show (do
      let ownerEntries ← pyIter (ownersVal table_data)
      let owners ← extractOwnersLoop ownerEntries []
      if owners.length > 0 then
        pure (Json.arr owners)
      else
        pure (Json.str "the table has no owners")) = _
  rw [hos]
  show (do
      let owners ← extractOwnersLoop os []
      if owners.length > 0 then
        pure (Json.arr owners)
      else
        pure (Json.str "the table has no owners")) = _
  rw [extractOwnersLoop_eq os [] hwf, exceptOk_bind, ownersSpec]
  by_cases hlen : (userIdsOf os).length > 0
  · rw [if_pos (by simpa using hlen), if_pos hlen]
    rfl
  · rw [if_neg (by simpa using hlen), if_neg hlen]
    rfl

theorem extract_error_propagation (table_data : List (String × Json)) (e : Json)
    (herr : table_data.lookup "error" = some e) :
    extract_columns table_data = .ok (Json.obj [("error", e)])
    ∧ extract_date_range table_data = .ok (Json.obj [("error", e)])
    ∧ extract_owners table_data = .ok (Json.obj [("error", e)]) := by
  have hk : dictHasKey table_data "error" = true := by simp [dictHasKey, herr]
  have hv : dictGet table_data "error" = e := by simp [dictGet, herr]
  refine ⟨?_, ?_, ?_⟩ <;>
    simp [extract_columns, extract_date_range, extract_owners, hk, hv]

/-- C3: on any input mapping that contains the key "error", each of
extract_columns, extract_date_range and extract_owners returns the structured
error object carrying that same error value. The equation holds for every
such mapping, whatever (even ill-shaped) data fields it carries, so none of
the data fields is iterated. -/
theorem claim_C3 (table_data : List (String × Json)) (e : Json)
    (herr : table_data.lookup "error" = some e) :
    extract_columns table_data = .ok (Json.obj [("error", e)])
    ∧ extract_date_range table_data = .ok (Json.obj [("error", e)])
    ∧ extract_owners table_data = .ok (Json.obj [("error", e)]) :=
  extract_error_propagation table_data e herr

theorem claim_C3_witness :
    extract_columns [("error", Json.str "boom"), ("columns", Json.null)] =
      .ok (Json.obj [("error", Json.str "boom")])
    ∧ extract_date_range [("error", Json.str "boom"), ("columns", Json.null)] =
      .ok (Json.obj [("error", Json.str "boom")])
    ∧ extract_owners [("error", Json.str "boom"), ("columns", Json.null)] =
      .ok (Json.obj [("error", Json.str "boom")]) :=
  claim_C3 [("error", Json.str "boom"), ("columns", Json.null)] (Json.str "boom") rfl

/-- C4: on an error-free response whose columns are well-shaped,
extract_columns returns every column entry, in source order, as its
{name, type, description} summary, and a summary is a member of
partition_keys exactly when some column with that summary has a badge named
exactly "partition column"; a column with no badges field contributes no
partition key. -/
theorem claim_C4 (table_data : List (String × Json)) (cols : List Json)
    (herr : table_data.lookup "error" = none)
    (hcols : columnsVal table_data = Json.arr cols)
    (hwf : cols.all wfColumn = true) :
    extract_columns table_data =
      .ok (Json.obj [("columns", Json.arr (cols.map columnInfo)),
        ("partition_keys", Json.arr (partitionKeysSpec cols))])
    ∧ ∀ info : Json, info ∈ partitionKeysSpec cols ↔
        ∃ c ∈ cols, columnInfo c = info ∧ hasPartitionBadge c = true := by
  refine ⟨extract_columns_eq table_data cols herr hcols hwf, ?_⟩
  intro info
  rw [partitionKeysSpec]
  constructor
  · intro hmem
    rw [List.mem_flatMap] at hmem
    obtain ⟨c, hc, hin⟩ := hmem
    rw [List.mem_map] at hin
    obtain ⟨b, hb, hbeq⟩ := hin
    refine ⟨c, hc, hbeq, ?_⟩
    rw [hasPartitionBadge, List.any_eq_true]
    exact ⟨b, (List.mem_filter.mp hb).1, (List.mem_filter.mp hb).2⟩
  · rintro ⟨c, hc, hinfo, hbadge⟩
    rw [List.mem_flatMap]
    rw [hasPartitionBadge, List.any_eq_true] at hbadge
    obtain ⟨b, hb, hpb⟩ := hbadge
    exact ⟨c, hc, List.mem_map.mpr ⟨b, List.mem_filter.mpr ⟨hb, hpb⟩, hinfo⟩⟩

theorem claim_C4_witness :
    extract_columns [("columns", Json.arr [
      Json.obj [("name", Json.str "dt"), ("col_type", Json.str "string"),
        ("badges", Json.arr [Json.obj [("badge_name", Json.str "partition column")]])],
      Json.obj [("name", Json.str "id"), ("col_type", Json.str "int"),
        ("description", Json.str "pk")],
      Json.obj [("name", Json.str "x"),
        ("badges", Json.arr [Json.obj [("badge_name", Json.str "Partition Column")]])]])] =
      .ok (Json.obj [("columns", Json.arr ([
        Json.obj [("name", Json.str "dt"), ("col_type", Json.str "string"),
          ("badges", Json.arr [Json.obj [("badge_name", Json.str "partition column")]])],
        Json.obj [("name", Json.str "id"), ("col_type", Json.str "int"),
          ("description", Json.str "pk")],
        Json.obj [("name", Json.str "x"),
          ("badges", Json.arr [Json.obj [("badge_name", Json.str "Partition Column")]])]].map columnInfo)),
        ("partition_keys", Json.arr (partitionKeysSpec [
        Json.obj [("name", Json.str "dt"), ("col_type", Json.str "string"),
          ("badges", Json.arr [Json.obj [("badge_name", Json.str "partition column")]])],
        Json.obj [("name", Json.str "id"), ("col_type", Json.str "int"),
          ("description", Json.str "pk")],
        Json.obj [("name", Json.str "x"),
          ("badges", Json.arr [Json.obj [("badge_name", Json.str "Partition Column")]])]]))]) :=
  (claim_C4 [("columns", Json.arr [
      Json.obj [("name", Json.str "dt"), ("col_type", Json.str "string"),
        ("badges", Json.arr [Json.obj [("badge_name", Json.str "partition column")]])],
      Json.obj [("name", Json.str "id"), ("col_type", Json.str "int"),
        ("description", Json.str "pk")],
      Json.obj [("name", Json.str "x"),
        ("badges", Json.arr [Json.obj [("badge_name", Json.str "Partition Column")]])]])]
    [Json.obj [("name", Json.str "dt"), ("col_type", Json.str "string"),
        ("badges", Json.arr [Json.obj [("badge_name", Json.str "partition column")]])],
      Json.obj [("name", Json.str "id"), ("col_type", Json.str "int"),
        ("description", Json.str "pk")],
      Json.obj [("name", Json.str "x"),
        ("badges", Json.arr [Json.obj [("badge_name", Json.str "Partition Column")]])]]
    rfl rfl rfl).1

/-- C10: on an error-free, well-shaped response, each column contributes its
summary to partition_keys once per badge named exactly "partition column", so
a column carrying the badge k times appears k times. -/
theorem claim_C10 (table_data : List (String × Json)) (cols : List Json)
    (herr : table_data.lookup "error" = none)
    (hcols : columnsVal table_data = Json.arr cols)
    (hwf : cols.all wfColumn = true) :
    extract_columns table_data =
      .ok (Json.obj [("columns", Json.arr (cols.map columnInfo)),
        ("partition_keys", Json.arr (cols.flatMap fun c =>
          List.replicate ((badgeListOf c).filter fun b => isPartitionBadge b).length
            (columnInfo c)))]) := by
  rw [extract_columns_eq table_data cols herr hcols hwf]
  simp only [partitionKeysSpec, List.map_const']

theorem claim_C10_witness :
    extract_columns [("columns", Json.arr [
      Json.obj [("name", Json.str "dt"),
        ("badges", Json.arr [Json.obj [("badge_name", Json.str "partition column")],
          Json.obj [("badge_name", Json.str "partition column")]])]])] =
      .ok (Json.obj [("columns", Json.arr ([
        Json.obj [("name", Json.str "dt"),
          ("badges", Json.arr [Json.obj [("badge_name", Json.str "partition column")],
            Json.obj [("badge_name", Json.str "partition column")]])]].map columnInfo)),
        ("partition_keys", Json.arr ([
        Json.obj [("name", Json.str "dt"),
          ("badges", Json.arr [Json.obj [("badge_name", Json.str "partition column")],
            Json.obj [("badge_name", Json.str "partition column")]])]].flatMap fun c =>
          List.replicate ((badgeListOf c).filter fun b => isPartitionBadge b).length
            (columnInfo c)))]) :=
  claim_C10 [("columns", Json.arr [
      Json.obj [("name", Json.str "dt"),
        ("badges", Json.arr [Json.obj [("badge_name", Json.str "partition column")],
          Json.obj [("badge_name", Json.str "partition column")]])]])]
    [Json.obj [("name", Json.str "dt"),
        ("badges", Json.arr [Json.obj [("badge_name", Json.str "partition column")],
          Json.obj [("badge_name", Json.str "partition column")]])]]
    rfl rfl rfl

/-- C5: on an error-free response with well-shaped watermarks,
extract_date_range returns the {from, to} pair whose from-side comes from the
last low_watermark entry (null when there is none) and whose to-side comes
from the last high_watermark entry (null when none), and it yields the
"table has no date range" sentinel exactly when both sides remain null, in
particular on an empty watermark list. -/
theorem claim_C5 (table_data : List (String × Json)) (wms : List Json)
    (herr : table_data.lookup "error" = none)
    (hwms : watermarksVal table_data = Json.arr wms)
    (hwf : wms.all isObj = true) :
    extract_date_range table_data = .ok (dateRangeSpec wms)
    ∧ (dateRangeSpec wms = Json.str "table has no date range" ↔
        lowsOf wms = [] ∧ highsOf wms = []) := by
  refine ⟨extract_date_range_eq table_data wms herr hwms hwf, ?_⟩
  rw [dateRangeSpec]
  by_cases hc : ((lowsOf wms).isEmpty && (highsOf wms).isEmpty) = true
  · rw [if_pos hc]
    simp only [Bool.and_eq_true, List.isEmpty_iff] at hc
    simp [hc]
  · rw [if_neg hc]
    constructor
    · intro h
      exact Json.noConfusion h
    · intro h
      exact absurd (by simp [h.1, h.2]) hc

theorem claim_C5_witness :
    extract_date_range [("watermarks", Json.arr [
      Json.obj [("watermark_type", Json.str "low_watermark"),
        ("partition_key", Json.str "dt"), ("partition_value", Json.str "2020-01-01")],
      Json.obj [("watermark_type", Json.str "high_watermark"),
        ("partition_key", Json.str "dt"), ("partition_value", Json.str "2020-12-31")]])] =
      .ok (dateRangeSpec [
      Json.obj [("watermark_type", Json.str "low_watermark"),
        ("partition_key", Json.str "dt"), ("partition_value", Json.str "2020-01-01")],
      Json.obj [("watermark_type", Json.str "high_watermark"),
        ("partition_key", Json.str "dt"), ("partition_value", Json.str "2020-12-31")]]) :=
  (claim_C5 [("watermarks", Json.arr [
      Json.obj [("watermark_type", Json.str "low_watermark"),
        ("partition_key", Json.str "dt"), ("partition_value", Json.str "2020-01-01")],
      Json.obj [("watermark_type", Json.str "high_watermark"),
        ("partition_key", Json.str "dt"), ("partition_value", Json.str "2020-12-31")]])]
    [Json.obj [("watermark_type", Json.str "low_watermark"),
        ("partition_key", Json.str "dt"), ("partition_value", Json.str "2020-01-01")],
      Json.obj [("watermark_type", Json.str "high_watermark"),
        ("partition_key", Json.str "dt"), ("partition_value", Json.str "2020-12-31")]]
    rfl rfl rfl).1

/-- C8: on an error-free response with well-shaped owner entries,
extract_owners returns the user_id values in source order with duplicates
preserved, and returns the "the table has no owners" sentinel exactly when
that sequence is empty; it never returns the empty list. -/
theorem claim_C8 (table_data : List (String × Json)) (os : List Json)
    (herr : table_data.lookup "error" = none)
    (hos : ownersVal table_data = Json.arr os)
    (hwf : os.all isObj = true) :
    extract_owners table_data = .ok (ownersSpec os)
    ∧ (ownersSpec os = Json.str "the table has no owners" ↔ userIdsOf os = [])
    ∧ ownersSpec os ≠ Json.arr [] := by
  refine ⟨extract_owners_eq table_data os herr hos hwf, ?_, ?_⟩
  · rw [ownersSpec]
    by_cases h : (userIdsOf os).length > 0
    · rw [if_pos h]
      constructor
      · intro hh
        exact Json.noConfusion hh
      · intro hh
        rw [hh] at h
        simp at h
    · rw [if_neg h]
      simp only [gt_iff_lt, Nat.pos_iff_ne_zero, ne_eq, not_not] at h
      rw [List.length_eq_zero] at h
      simp [h]
  · rw [ownersSpec]
    by_cases h : (userIdsOf os).length > 0
    · rw [if_pos h]
      intro hh
      rw [Json.arr.injEq] at hh
      rw [hh] at h
      simp at h
    · rw [if_neg h]
      intro hh
      exact Json.noConfusion hh

theorem claim_C8_witness :
    extract_owners [("owners", Json.arr [Json.obj [("user_id", Json.str "a")],
      Json.obj [("user_id", Json.str "a")]])] =
      .ok (ownersSpec [Json.obj [("user_id", Json.str "a")],
        Json.obj [("user_id", Json.str "a")]]) :=
  (claim_C8 [("owners", Json.arr [Json.obj [("user_id", Json.str "a")],
      Json.obj [("user_id", Json.str "a")]])]
    [Json.obj [("user_id", Json.str "a")], Json.obj [("user_id", Json.str "a")]]
    rfl rfl rfl).1

/-- C6: for any direction outside the enumerated set, get_lineage (and the
get_table_lineage_info tool that forwards to it) returns the structured
validation-error value, and its request log is empty: no network request is
constructed or sent. -/
theorem claim_C6 (fetch : Fetch) (base_url database schema_name table_name : String)
    (depth : Int) (direction : String)
    (h : direction ≠ "both" ∧ direction ≠ "upstream" ∧ direction ≠ "downstream") :
    get_lineage fetch base_url database schema_name table_name depth direction =
      (Json.obj [("error",
        Json.str "Invalid direction. Must be one of: both, upstream, downstream")], [])
    ∧ get_table_lineage_info fetch base_url database schema_name table_name depth direction =
      (Json.obj [("error",
        Json.str "Invalid direction. Must be one of: both, upstream, downstream")], []) := by
  have hv : validDirection direction = false := by
    rw [validDirection]
    simp [h.1, h.2.1, h.2.2]
  constructor <;> simp [get_table_lineage_info, get_lineage, hv]

theorem claim_C6_witness :
    get_table_lineage_info (fun _ => []) "http://localhost:5000" "db" "sch" "tbl" 1 "sideways" =
      (Json.obj [("error",
        Json.str "Invalid direction. Must be one of: both, upstream, downstream")], []) :=
  (claim_C6 (fun _ => []) "http://localhost:5000" "db" "sch" "tbl" 1 "sideways"
    ⟨by decide, by decide, by decide⟩).2

/-- C7: for a valid direction and a successful lineage response, get_lineage
returns the passthrough {upstream, downstream} value built from
upstream_entities and downstream_entities, except that the "Table has no
lineage" sentinel is returned exactly when both fields are falsy (null,
missing, or an empty collection). -/
theorem claim_C7 (fetch : Fetch) (base_url database schema_name table_name : String)
    (depth : Int) (direction : String) (resp : List (String × Json))
    (hdir : validDirection direction = true)
    (hresp : fetch (lineage_url base_url database schema_name table_name depth direction) = resp)
    (_herr : resp.lookup "error" = none) :
    ((get_lineage fetch base_url database schema_name table_name depth direction).1 =
      if truthy (dictGet resp "upstream_entities") || truthy (dictGet resp "downstream_entities")
      then Json.obj [("upstream", dictGet resp "upstream_entities"),
        ("downstream", dictGet resp "downstream_entities")]
      else Json.str "Table has no lineage")
    ∧ ((get_lineage fetch base_url database schema_name table_name depth direction).1 =
        Json.str "Table has no lineage"
      ↔ truthy (dictGet resp "upstream_entities") = false
        ∧ truthy (dictGet resp "downstream_entities") = false) := by
  have hbody : (get_lineage fetch base_url database schema_name table_name depth direction).1 =
      if truthy (dictGet resp "upstream_entities") || truthy (dictGet resp "downstream_entities")
      then Json.obj [("upstream", dictGet resp "upstream_entities"),
        ("downstream", dictGet resp "downstream_entities")]
      else Json.str "Table has no lineage" := by
    rw [get_lineage, hdir]
    simp only [Bool.not_true, Bool.false_eq_true, if_false, make_request, hresp]
  refine ⟨hbody, ?_⟩
  rw [hbody]
  by_cases hor : (truthy (dictGet resp "upstream_entities")
      || truthy (dictGet resp "downstream_entities")) = true
  · rw [if_pos hor]
    constructor
    · intro hh
      exact Json.noConfusion hh
    · intro hh
      rw [hh.1, hh.2] at hor
      simp at hor
  · rw [if_neg hor]
    simp only [Bool.or_eq_true] at hor
    push_neg at hor
    simp only [Bool.not_eq_true] at hor
    exact ⟨fun _ => ⟨hor.1, hor.2⟩, fun _ => rfl⟩

theorem claim_C7_witness :
    (get_lineage (fun _ => [("upstream_entities", Json.arr [])])
      "http://localhost:5000" "db" "sch" "tbl" 1 "both").1 =
      Json.str "Table has no lineage" :=
  (claim_C7 (fun _ => [("upstream_entities", Json.arr [])])
    "http://localhost:5000" "db" "sch" "tbl" 1 "both"
    [("upstream_entities", Json.arr [])] rfl rfl rfl).2.mpr ⟨rfl, rfl⟩

/-- C9: each façade tool is exactly the composition of one fetch with one
normalizer — get_table_columns, get_table_date_range and get_table_owners
compose get_metadata with the matching extractor, carrying over the request
log unchanged; get_table_lineage_info merely forwards its arguments to
get_lineage; and a call omitting the optional arguments forwards the
defaults depth = 1 and direction = "both". -/
theorem claim_C9 :
    (∀ (fetch : Fetch) (b d s t : String),
      get_table_columns fetch b d s t =
        (extract_columns (get_metadata fetch b d s t).1, (get_metadata fetch b d s t).2))
    ∧ (∀ (fetch : Fetch) (b d s t : String),
      get_table_date_range fetch b d s t =
        (extract_date_range (get_metadata fetch b d s t).1, (get_metadata fetch b d s t).2))
    ∧ (∀ (fetch : Fetch) (b d s t : String),
      get_table_owners fetch b d s t =
        (extract_owners (get_metadata fetch b d s t).1, (get_metadata fetch b d s t).2))
    ∧ (∀ (fetch : Fetch) (b d s t : String) (depth : Int) (direction : String),
      get_table_lineage_info fetch b d s t depth direction =
        get_lineage fetch b d s t depth direction)
    ∧ (∀ (fetch : Fetch) (b d s t : String),
      get_table_lineage_info_default fetch b d s t = get_lineage fetch b d s t 1 "both") :=
  ⟨fun _ _ _ _ _ => rfl, fun _ _ _ _ _ => rfl, fun _ _ _ _ _ => rfl,
   fun _ _ _ _ _ _ _ => rfl, fun _ _ _ _ _ => rfl⟩

/-- C1 counterexample: the dashboard extraction of get_tables_dashboard does
not treat a missing dashboards field as an empty collection — on a response
without (or with a null) dashboards field the for loop iterates None and
raises TypeError; likewise a null (rather than missing) columns field makes
extract_columns raise, because dict.get with a default only applies to a
missing key. -/
theorem claim_C1_counterexample :
    (get_tables_dashboard (fun _ => []) "http://localhost:5000" "db" "sch" "tbl").1 =
      Except.error PyErr.typeError
    ∧ extract_columns [("columns", Json.null)] = Except.error PyErr.typeError := by
  constructor <;> rfl

/-- C1 (amended): extract_columns, extract_date_range and extract_owners
treat a missing key as an empty collection and terminate normally on it; but
a field that is present with value null makes them raise TypeError, and the
dashboard extraction of get_tables_dashboard raises TypeError whenever the
dashboards field is null or absent instead of treating it as empty. -/
theorem claim_C1_amended :
    (∀ table_data : List (String × Json), table_data.lookup "error" = none →
      table_data.lookup "columns" = none →
      extract_columns table_data =
        .ok (Json.obj [("columns", Json.arr []), ("partition_keys", Json.arr [])]))
    ∧ (∀ table_data : List (String × Json), table_data.lookup "error" = none →
      table_data.lookup "watermarks" = none →
      extract_date_range table_data = .ok (Json.str "table has no date range"))
    ∧ (∀ table_data : List (String × Json), table_data.lookup "error" = none →
      table_data.lookup "owners" = none →
      extract_owners table_data = .ok (Json.str "the table has no owners"))
    ∧ (∀ table_data : List (String × Json), table_data.lookup "error" = none →
      table_data.lookup "columns" = some Json.null →
      extract_columns table_data = Except.error PyErr.typeError)
    ∧ (∀ response : List (String × Json),
      response.lookup "dashboards" = none ∨ response.lookup "dashboards" = some Json.null →
      extract_dashboards response = Except.error PyErr.typeError) := by
  refine ⟨?_, ?_, ?_, ?_, ?_⟩
  · intro table_data herr hcols
    rw [extract_columns, dictHasKey, herr, dictGetD, hcols]
    rfl
  · intro table_data herr hwms
    rw [extract_date_range, dictHasKey, herr, dictGetD, hwms]
    rfl
  · intro table_data herr hos
    rw [extract_owners, dictHasKey, herr, dictGetD, hos]
    rfl
  · intro table_data herr hcols
    rw [extract_columns, dictHasKey, herr, dictGetD, hcols]
    rfl
  · intro response hdash
    rw [extract_dashboards, dictGet]
    cases hdash with
    | inl h => rw [h]; rfl
    | inr h => rw [h]; rfl

theorem claim_C1_witness :
    extract_columns [] =
      .ok (Json.obj [("columns", Json.arr []), ("partition_keys", Json.arr [])])
    ∧ extract_date_range [] = .ok (Json.str "table has no date range")
    ∧ extract_owners [] = .ok (Json.str "the table has no owners")
    ∧ extract_columns [("columns", Json.null)] = Except.error PyErr.typeError
    ∧ extract_dashboards [("dashboards", Json.null)] = Except.error PyErr.typeError :=
  ⟨claim_C1_amended.1 [] rfl rfl,
   claim_C1_amended.2.1 [] rfl rfl,
   claim_C1_amended.2.2.1 [] rfl rfl,
   claim_C1_amended.2.2.2.1 [("columns", Json.null)] rfl rfl,
   claim_C1_amended.2.2.2.2 [("dashboards", Json.null)] (Or.inr rfl)⟩

/-- C2 counterexample: a failed fetch is reported as the absence sentinel by
the lineage tool — on an {error} response both entity fields are absent, so
get_lineage answers "Table has no lineage" instead of propagating the error. -/
theorem claim_C2_counterexample :
    (get_lineage (fun _ => [("error", Json.str "HTTP Error 500: Internal Server Error")])
      "http://localhost:5000" "db" "sch" "tbl" 1 "both").1 =
      Json.str "Table has no lineage" := by
  rfl

/-- C2 (amended): the three metadata tools return the structured error object
on a failed fetch (an error-keyed response), reserving their sentinels for
successful responses; but get_lineage reports a failed fetch as the "Table
has no lineage" sentinel, and get_tables_dashboard raises TypeError on a
failed fetch. -/
theorem claim_C2_amended :
    (∀ (fetch : Fetch) (b d s t : String) (e : Json),
      (fetch (get_table_url b d s t)).lookup "error" = some e →
        (get_table_columns fetch b d s t).1 = .ok (Json.obj [("error", e)])
        ∧ (get_table_date_range fetch b d s t).1 = .ok (Json.obj [("error", e)])
        ∧ (get_table_owners fetch b d s t).1 = .ok (Json.obj [("error", e)]))
    ∧ (∀ (fetch : Fetch) (b d s t : String) (depth : Int) (direction : String) (e : Json),
      validDirection direction = true →
      fetch (lineage_url b d s t depth direction) = [("error", e)] →
        (get_lineage fetch b d s t depth direction).1 = Json.str "Table has no lineage")
    ∧ (∀ (fetch : Fetch) (b d s t : String) (e : Json),
      fetch (dashboard_url b d s t) = [("error", e)] →
        (get_tables_dashboard fetch b d s t).1 = Except.error PyErr.typeError) := by
  refine ⟨?_, ?_, ?_⟩
  · intro fetch b d s t e herr
    exact extract_error_propagation (fetch (get_table_url b d s t)) e herr
  · intro fetch b d s t depth direction e hdir hresp
    rw [get_lineage, hdir]
    simp only [Bool.not_true, Bool.false_eq_true, if_false, make_request, hresp]
    rfl
  · intro fetch b d s t e hresp
    rw [get_tables_dashboard]
    simp only [make_request, hresp]
    rfl

theorem claim_C2_witness :
    (get_table_columns (fun _ => [("error", Json.str "boom")]) "u" "db" "sch" "tbl").1 =
      .ok (Json.obj [("error", Json.str "boom")])
    ∧ (get_lineage (fun _ => [("error", Json.str "boom")]) "u" "db" "sch" "tbl" 2 "upstream").1 =
      Json.str "Table has no lineage"
    ∧ (get_tables_dashboard (fun _ => [("error", Json.str "boom")]) "u" "db" "sch" "tbl").1 =
      Except.error PyErr.typeError :=
  ⟨(claim_C2_amended.1 (fun _ => [("error", Json.str "boom")]) "u" "db" "sch" "tbl"
      (Json.str "boom") rfl).1,
   claim_C2_amended.2.1 (fun _ => [("error", Json.str "boom")]) "u" "db" "sch" "tbl"
      2 "upstream" (Json.str "boom") rfl rfl,
   claim_C2_amended.2.2 (fun _ => [("error", Json.str "boom")]) "u" "db" "sch" "tbl"
      (Json.str "boom") rfl⟩
